import Mathlib

/-!
Verification of the GPAx calculator core (main.js and the extended page/results
script). Numbers are modelled as exact rationals; the JavaScript value NaN is
modelled as `none` in `Option ℚ`. String-to-number conversion is modelled after
the two JavaScript primitives the source uses: `parseFloat` (longest numeric
prefix; NaN when no prefix parses) and the implicit ToNumber coercion applied
by arithmetic on strings (whole-string parse; empty string is 0). The hex and
Infinity literal forms of those primitives are omitted: no code path in this
repository can produce a value from them that passes the `<= 10` range check,
so an Infinity result is rejected exactly as `none` is.

The parse is split into a syntactic phase (`parseFloatParts`, over characters
and naturals only) and a value phase (`valOfParts`, producing the rational),
so that concrete inputs evaluate by `decide` on the syntactic phase and by
`norm_num` on the value phase.
-/

namespace GPAx

/-- JavaScript whitespace recognised when skipping a leading run before parsing. -/
def isSpace (c : Char) : Bool :=
  c = ' ' ∨ c = '\t' ∨ c = '\n' ∨ c = '\r'

/-- Numeric value of a decimal digit character. -/
def digitVal (c : Char) : ℕ := c.toNat - 48

/-- Consume a maximal run of decimal digits; returns (value, digit count) and the rest. -/
def takeDigits : List Char → (ℕ × ℕ) × List Char
  | [] => ((0, 0), [])
  | c :: cs =>
    if c.isDigit then
      let ((v, n), r) := takeDigits cs
      ((digitVal c * 10 ^ n + v, n + 1), r)
    else ((0, 0), c :: cs)

/-- Syntactic parts of a JavaScript decimal literal: sign, integer part,
fraction digits (as a natural together with their count), and decimal exponent. -/
structure NumParts where
  neg : Bool
  intPart : ℕ
  fracPart : ℕ
  fracDigits : ℕ
  exp10 : ℤ
  deriving DecidableEq

/-- Parse an unsigned mantissa `digits [. digits]`; at least one digit is
required on one side of the point. Returns (intPart, fracPart, fracDigits)
and the unconsumed rest. -/
def parseMantissaParts (l : List Char) : Option ((ℕ × ℕ × ℕ) × List Char) :=
  let ((i, ni), r) := takeDigits l
  match r with
  | '.' :: r2 =>
    let ((f, nf), r3) := takeDigits r2
    if ni = 0 ∧ nf = 0 then none
    else some ((i, f, nf), r3)
  | _ => if ni = 0 then none else some ((i, 0, 0), r)

/-- Parse an optional exponent part `e|E [+|-] digits`; it is consumed only
when at least one digit follows, otherwise the exponent is 0 and nothing is
consumed. -/
def parseExponentParts (l : List Char) : ℤ × List Char :=
  match l with
  | [] => (0, [])
  | c :: rest =>
    if c = 'e' ∨ c = 'E' then
      let (sgn, rest2) : ℤ × List Char :=
        match rest with
        | '+' :: r => (1, r)
        | '-' :: r => (-1, r)
        | r => (1, r)
      let ((e, ne), r3) := takeDigits rest2
      if ne = 0 then (0, c :: rest)
      else (sgn * (e : ℤ), r3)
    else (0, c :: rest)

/-- Parse a signed numeric literal from a character list; the sign character,
when present, is consumed first. -/
def parseSigned (l : List Char) : Option (NumParts × List Char) :=
  let (neg, l2) : Bool × List Char :=
    match l with
    | '+' :: r => (false, r)
    | '-' :: r => (true, r)
    | r => (false, r)
  match parseMantissaParts l2 with
  | none => none
  | some ((i, f, nf), r) =>
    let (e, r2) := parseExponentParts r
    some (⟨neg, i, f, nf, e⟩, r2)

/-- Rational value denoted by parsed literal parts. -/
def valOfParts (p : NumParts) : ℚ :=
  (if p.neg then -1 else 1) * ((p.intPart : ℚ) + (p.fracPart : ℚ) / 10 ^ p.fracDigits)
    * (10 : ℚ) ^ p.exp10

/-- Syntactic phase of JavaScript `parseFloat`: skip leading whitespace, then
the longest numeric prefix; `none` models NaN (no prefix parses). -/
def parseFloatParts (s : String) : Option (NumParts × List Char) :=
  parseSigned (s.data.dropWhile isSpace)

/-- Model of JavaScript `parseFloat` as used by `isValidGPA` and both
calculator flows: the value of the longest numeric prefix, `none` for NaN. -/
def parseFloat (s : String) : Option ℚ :=
  (parseFloatParts s).map (fun p => valOfParts p.1)

/-- The character list of a string with leading and trailing whitespace removed. -/
def trimmed (s : String) : List Char :=
  ((s.data.dropWhile isSpace).reverse.dropWhile isSpace).reverse

/-- Model of the implicit JavaScript ToNumber coercion on strings (as in the
results page expression `sgpaValue - 0.75`): whole-string parse after trimming,
the empty string is 0, trailing garbage makes it NaN (`none`). -/
def toNumber (s : String) : Option ℚ :=
  match trimmed s with
  | [] => some 0
  | l =>
    match parseSigned l with
    | some (p, []) => some (valOfParts p)
    | _ => none

/-- Model of JavaScript `toFixed(2)` read back as a number: round to the
nearest multiple of 1/100, half towards positive infinity (toFixed picks the
larger integer on a tie). -/
def round2 (q : ℚ) : ℚ := (round (q * 100) : ℤ) / 100

/-- Convert SGPA to percentage (main.js `sgpaToPercentage`). -/
def sgpaToPercentage (sgpa : ℚ) : ℚ :=
  (sgpa - 0.75) * 10

/-- YGPA from odd- and even-semester SGPA (main.js `calculateYGPA`). -/
def calculateYGPA (sgpaOdd sgpaEven : ℚ) : ℚ :=
  (sgpaOdd + sgpaEven) / 2

/-- Convert YGPA to percentage (main.js `ygpaToPercentage`). -/
def ygpaToPercentage (ygpa : ℚ) : ℚ :=
  (ygpa - 0.75) * 10

/-- Validate SGPA/YGPA input (main.js `isValidGPA`):
`const num = parseFloat(value); return !isNaN(num) && num >= 0 && num <= 10`. -/
def isValidGPA (value : String) : Bool :=
  match parseFloat value with
  | none => false
  | some num => decide (0 ≤ num ∧ num ≤ 10)

/-- Content of a text display element: the placeholder written on reset
(`'--'` / `'--%'` / `'-'`), the `NaN` rendering, or a numeric value (already
rounded to the two decimals `toFixed(2)` prints). -/
inductive Cell where
  | placeholder : Cell
  | nan : Cell
  | val : ℚ → Cell
  deriving DecidableEq

/-- The shared mutable animation parameters read by the render loop. -/
structure CalcState where
  rotationSpeed : ℚ
  scaleMultiplier : ℚ
  deriving DecidableEq

/-- Observable outcome of `updateSGPACalculation`: the percentage display, the
inline error indicator, and the animation parameters after the call. -/
structure SgpaView where
  sgpaPercentage : Cell
  sgpaErrorShown : Bool
  anim : CalcState
  deriving DecidableEq

/-- main.js `updateSGPACalculation`, as a function of the raw field text and
the animation parameters before the call. Empty text: placeholder, error
hidden, animation untouched. Invalid text: placeholder, error shown, animation
untouched. Valid text: percentage displayed and animation parameters updated. -/
def updateSGPACalculation (sgpa : String) (anim : CalcState) : SgpaView :=
  if sgpa = "" then
    ⟨Cell.placeholder, false, anim⟩
  else if isValidGPA sgpa then
    let percentage := sgpaToPercentage ((parseFloat sgpa).getD 0)
    ⟨Cell.val (round2 percentage), false,
      ⟨0.005 + percentage / 1000, 0.8 + percentage / 200⟩⟩
  else
    ⟨Cell.placeholder, true, anim⟩

/-- Observable outcome of `updateYGPACalculation`: both displays, both inline
error indicators, and the animation parameters after the call. -/
structure YgpaView where
  ygpaValue : Cell
  ygpaPercentage : Cell
  oddErrorShown : Bool
  evenErrorShown : Bool
  anim : CalcState
  deriving DecidableEq

/-- main.js `updateYGPACalculation`, as a function of the two raw field texts
and the animation parameters before the call. Each field's error indicator
shows iff that field is nonempty and invalid; the yearly figures are computed
only when both fields are nonempty and error-free, otherwise both displays are
reset to the placeholder and the animation parameters are untouched. (The
decorative sphere-colour update in the same branch is not modelled.) -/
def updateYGPACalculation (odd even : String) (anim : CalcState) : YgpaView :=
  let oddError : Bool := decide (odd ≠ "") && ! isValidGPA odd
  let evenError : Bool := decide (even ≠ "") && ! isValidGPA even
  let hasError : Bool := oddError || evenError
  if odd = "" ∨ even = "" ∨ hasError = true then
    ⟨Cell.placeholder, Cell.placeholder, oddError, evenError, anim⟩
  else
    let ygpa := calculateYGPA ((parseFloat odd).getD 0) ((parseFloat even).getD 0)
    let percentage := ygpaToPercentage ygpa
    ⟨Cell.val (round2 ygpa), Cell.val (round2 percentage), oddError, evenError,
      ⟨0.005 + percentage / 1000, 0.8 + percentage / 200⟩⟩

/-- Display of a possibly-NaN number through `toFixed(2)`. -/
def jsToFixed2 : Option ℚ → Cell
  | none => Cell.nan
  | some q => Cell.val (round2 q)

/-- The four numeric displays of the secondary results page. -/
structure ResultsPage where
  resultSgpa : Cell
  resultSgpaPercent : Cell
  resultYgpa : Cell
  resultYgpaPercent : Cell
  deriving DecidableEq

/-- Extended script `updateResultsPage`, as a function of the three raw field
texts it re-reads. The SGPA pair is computed when `sgpaValue` is truthy
(nonempty); `result-sgpa` shows `parseFloat(sgpaValue).toFixed(2)` and
`result-sgpa-percent` shows `((sgpaValue - 0.75) * 10).toFixed(2)` (implicit
ToNumber coercion on the raw text). The YGPA pair is computed when both term
texts are truthy; the mean is pushed through `toFixed(2)` and the resulting
string is coerced back to a number before the percentage conversion. No
validity check is applied on this page. (The performance bar, congratulations
block and performance text driven from the same branch are modelled by the
standalone `showCongratulations` / `updatePerformanceText` below.) -/
def updateResultsPage (sgpaValue oddValue evenValue : String) : ResultsPage :=
  let sgpaCells : Cell × Cell :=
    if sgpaValue = "" then (Cell.placeholder, Cell.placeholder)
    else
      (jsToFixed2 (parseFloat sgpaValue),
       jsToFixed2 ((toNumber sgpaValue).map (fun v => (v - 0.75) * 10)))
  let ygpaCells : Cell × Cell :=
    if oddValue = "" ∨ evenValue = "" then (Cell.placeholder, Cell.placeholder)
    else
      match parseFloat oddValue, parseFloat evenValue with
      | some a, some b =>
        let ygpa := round2 ((a + b) / 2)
        (Cell.val ygpa, jsToFixed2 (some ((ygpa - 0.75) * 10)))
      | _, _ => (Cell.nan, Cell.nan)
  ⟨sgpaCells.1, sgpaCells.2, ygpaCells.1, ygpaCells.2⟩

/-- Extended script `showCongratulations`: the celebratory message/emoji pair
for a percentage, `none` when the container is cleared (below 60). -/
def showCongratulations (percentage : ℚ) : Option (String × String) :=
  if percentage ≥ 90 then some ("🌟 Outstanding Performance! 🌟", "🎉 ⭐ 🏆")
  else if percentage ≥ 80 then some ("🎊 Excellent Work! 🎊", "🎉 ✨ 👏")
  else if percentage ≥ 70 then some ("👍 Great Job! 👍", "😊 💪 👏")
  else if percentage ≥ 60 then some ("📈 Good Effort! Keep Improving 📈", "💫 🚀 🎯")
  else none

/-- Extended script `updatePerformanceText`: the performance text and its
colour for a percentage. -/
def updatePerformanceText (percentage : ℚ) : String × String :=
  if percentage ≥ 90 then ("⭐ Outstanding - Exceptional performance!", "#00f5ff")
  else if percentage ≥ 80 then ("✨ Excellent - Keep it up!", "#7eb3ff")
  else if percentage ≥ 70 then ("👍 Good - On the right track!", "#a8e6cf")
  else if percentage ≥ 60 then ("📈 Satisfactory - Room for improvement!", "#ffd93d")
  else ("💪 Keep pushing forward!", "#ff6b6b")

/-- Rotation speed derived from a freshly computed percentage (both flows):
`rotationSpeed = 0.005 + percentage / 1000`. -/
def rotationOf (percentage : ℚ) : ℚ := 0.005 + percentage / 1000

/-- Scale multiplier derived from a freshly computed percentage (both flows):
`scaleMultiplier = 0.8 + percentage / 200`. -/
def scaleOf (percentage : ℚ) : ℚ := 0.8 + percentage / 200

/-! Helper evaluations of the parser on the concrete inputs of the claims. -/

theorem parts_empty : parseFloatParts "" = none := by decide

theorem parts_abc : parseFloatParts "abc" = none := by decide

theorem parts_ten : parseFloatParts "10" = some (⟨false, 10, 0, 0, 0⟩, []) := by decide

theorem parts_ten01 : parseFloatParts "10.01" = some (⟨false, 10, 1, 2, 0⟩, []) := by decide

theorem parts_neg01 : parseFloatParts "-0.1" = some (⟨true, 0, 1, 1, 0⟩, []) := by decide

theorem parts_seven_abc : parseFloatParts "7abc" = some (⟨false, 7, 0, 0, 0⟩, ['a', 'b', 'c']) := by
  decide

theorem parts_fifteen : parseFloatParts "15" = some (⟨false, 15, 0, 0, 0⟩, []) := by decide

theorem parts_eight : parseFloatParts "8" = some (⟨false, 8, 0, 0, 0⟩, []) := by decide

theorem parts_8002 : parseFloatParts "8.002" = some (⟨false, 8, 2, 3, 0⟩, []) := by decide

theorem pf_empty : parseFloat "" = none := by simp [parseFloat, parts_empty]

theorem pf_abc : parseFloat "abc" = none := by simp [parseFloat, parts_abc]

theorem pf_ten : parseFloat "10" = some 10 := by
  norm_num [parseFloat, parts_ten, valOfParts]

theorem pf_ten01 : parseFloat "10.01" = some (1001 / 100) := by
  norm_num [parseFloat, parts_ten01, valOfParts]

theorem pf_neg01 : parseFloat "-0.1" = some (-(1 / 10)) := by
  norm_num [parseFloat, parts_neg01, valOfParts]

theorem pf_seven_abc : parseFloat "7abc" = some 7 := by
  norm_num [parseFloat, parts_seven_abc, valOfParts]

theorem pf_fifteen : parseFloat "15" = some 15 := by
  norm_num [parseFloat, parts_fifteen, valOfParts]

theorem pf_eight : parseFloat "8" = some 8 := by
  norm_num [parseFloat, parts_eight, valOfParts]

theorem pf_8002 : parseFloat "8.002" = some (4001 / 500) := by
  norm_num [parseFloat, parts_8002, valOfParts]

theorem tnum_seven_abc : toNumber "7abc" = none := by
  have ht : trimmed "7abc" = ['7', 'a', 'b', 'c'] := by decide
  have h : parseSigned ['7', 'a', 'b', 'c'] = some (⟨false, 7, 0, 0, 0⟩, ['a', 'b', 'c']) := by
    decide
  simp [toNumber, ht, h]

theorem tnum_fifteen : toNumber "15" = some 15 := by
  have ht : trimmed "15" = ['1', '5'] := by decide
  have h : parseSigned ['1', '5'] = some (⟨false, 15, 0, 0, 0⟩, []) := by decide
  simp [toNumber, ht, h, valOfParts]

theorem invalid_empty : isValidGPA "" = false := by simp [isValidGPA, pf_empty]

theorem invalid_abc : isValidGPA "abc" = false := by simp [isValidGPA, pf_abc]

theorem valid_ten : isValidGPA "10" = true := by norm_num [isValidGPA, pf_ten]

theorem invalid_ten01 : isValidGPA "10.01" = false := by norm_num [isValidGPA, pf_ten01]

theorem invalid_neg01 : isValidGPA "-0.1" = false := by norm_num [isValidGPA, pf_neg01]

theorem valid_seven_abc : isValidGPA "7abc" = true := by norm_num [isValidGPA, pf_seven_abc]

theorem invalid_fifteen : isValidGPA "15" = false := by norm_num [isValidGPA, pf_fifteen]

theorem valid_eight : isValidGPA "8" = true := by norm_num [isValidGPA, pf_eight]

theorem valid_8002 : isValidGPA "8.002" = true := by norm_num [isValidGPA, pf_8002]

theorem isValidGPA_ne_empty {s : String} (h : isValidGPA s = true) : s ≠ "" := by
  rintro rfl
  simp [invalid_empty] at h

/-! Branch characterisations of the two reactive update handlers. -/

theorem jsToFixed2_ne_placeholder (x : Option ℚ) : jsToFixed2 x ≠ Cell.placeholder := by
  cases x <;> simp [jsToFixed2]

theorem updateSGPA_valid (s : String) (st : CalcState) (h : isValidGPA s = true) :
    updateSGPACalculation s st =
      ⟨Cell.val (round2 (sgpaToPercentage ((parseFloat s).getD 0))), false,
        ⟨0.005 + sgpaToPercentage ((parseFloat s).getD 0) / 1000,
          0.8 + sgpaToPercentage ((parseFloat s).getD 0) / 200⟩⟩ := by
  have hne := isValidGPA_ne_empty h
  simp [updateSGPACalculation, hne, h]

theorem updateYGPA_valid (o e : String) (st : CalcState)
    (ho : isValidGPA o = true) (he : isValidGPA e = true) :
    updateYGPACalculation o e st =
      ⟨Cell.val (round2 (calculateYGPA ((parseFloat o).getD 0) ((parseFloat e).getD 0))),
        Cell.val (round2 (ygpaToPercentage
          (calculateYGPA ((parseFloat o).getD 0) ((parseFloat e).getD 0)))),
        false, false,
        ⟨0.005 + ygpaToPercentage
            (calculateYGPA ((parseFloat o).getD 0) ((parseFloat e).getD 0)) / 1000,
          0.8 + ygpaToPercentage
            (calculateYGPA ((parseFloat o).getD 0) ((parseFloat e).getD 0)) / 200⟩⟩ := by
  have hno := isValidGPA_ne_empty ho
  have hne := isValidGPA_ne_empty he
  simp [updateYGPACalculation, hno, hne, ho, he]

theorem updateYGPA_invalid (o e : String) (st : CalcState)
    (h : ¬(isValidGPA o = true ∧ isValidGPA e = true)) :
    updateYGPACalculation o e st =
      ⟨Cell.placeholder, Cell.placeholder,
        decide (o ≠ "") && ! isValidGPA o, decide (e ≠ "") && ! isValidGPA e, st⟩ := by
  by_cases ho : o = "" <;> by_cases he : e = "" <;>
    by_cases hvo : isValidGPA o <;> by_cases hve : isValidGPA e <;>
      simp_all [updateYGPACalculation]
/-- Claim C2 (confirmed): `isValidGPA raw` is true iff `raw` parses (by the
prefix parse of parseFloat) to a finite number in the closed interval [0, 10];
empty and unparseable input is invalid, and the five concrete vectors hold. -/
theorem C2_validator_spec :
    (∀ s : String, isValidGPA s = true ↔ ∃ q : ℚ, parseFloat s = some q ∧ 0 ≤ q ∧ q ≤ 10)
    ∧ isValidGPA "" = false ∧ isValidGPA "10" = true ∧ isValidGPA "10.01" = false
    ∧ isValidGPA "-0.1" = false ∧ isValidGPA "abc" = false := by
  refine ⟨fun s => ?_, invalid_empty, valid_ten, invalid_ten01, invalid_neg01, invalid_abc⟩
  unfold isValidGPA
  cases h : parseFloat s <;> simp [h]

/-- Claim C3 (confirmed): on the whole grade-point range the conversion is
exactly `(g - 0.75) * 10` with no clamping of the output, so 10 maps to 92.5
and 0 maps to the negative value -7.5; the yearly conversion applies the same
formula. -/
theorem C3_conversion_formula :
    (∀ g : ℚ, 0 ≤ g → g ≤ 10 → sgpaToPercentage g = (g - 0.75) * 10)
    ∧ sgpaToPercentage 10 = 92.5 ∧ sgpaToPercentage 0 = -7.5
    ∧ (∀ y : ℚ, ygpaToPercentage y = (y - 0.75) * 10) :=
  ⟨fun _ _ _ => rfl, by norm_num [sgpaToPercentage], by norm_num [sgpaToPercentage],
    fun _ => rfl⟩

/-- Witness for C3: the formula evaluated at the concrete grade-point 10. -/
theorem C3_conversion_formula_witness : sgpaToPercentage 10 = (10 - 0.75) * 10 :=
  C3_conversion_formula.1 10 (by norm_num) (by norm_num)

/-- Claim C7 (confirmed): the yearly grade-point is the arithmetic mean of the
two term grade-points, hence commutative in its arguments; the concrete
vectors `calculateYGPA 8 9 = 8.5` and `ygpaToPercentage 8.5 = 77.5` hold. -/
theorem C7_yearly_mean :
    (∀ a b : ℚ, 0 ≤ a → a ≤ 10 → 0 ≤ b → b ≤ 10 →
      calculateYGPA a b = (a + b) / 2 ∧ calculateYGPA a b = calculateYGPA b a)
    ∧ calculateYGPA 8 9 = 8.5 ∧ ygpaToPercentage 8.5 = 77.5 := by
  refine ⟨fun a b _ _ _ _ => ⟨rfl, ?_⟩, by norm_num [calculateYGPA],
    by norm_num [ygpaToPercentage]⟩
  unfold calculateYGPA
  ring

/-- Witness for C7: commutativity at the concrete pair (8, 9). -/
theorem C7_yearly_mean_witness : calculateYGPA 8 9 = calculateYGPA 9 8 :=
  (C7_yearly_mean.1 8 9 (by norm_num) (by norm_num) (by norm_num) (by norm_num)).2

/-- Claim C8 (confirmed): the validator and the conversions are total Lean
functions of their whole input domains; a parse failure (NaN) is reported only
through the validator returning false, and the single-grade-point handler
always yields a well-defined display (placeholder or a value) on any input. -/
theorem C8_totality :
    (∀ s : String, parseFloat s = none → isValidGPA s = false)
    ∧ (∀ s : String, isValidGPA s = true ∨ isValidGPA s = false)
    ∧ (∀ g : ℚ, sgpaToPercentage g = (g - 0.75) * 10)
    ∧ (∀ a b : ℚ, calculateYGPA a b = (a + b) / 2)
    ∧ (∀ y : ℚ, ygpaToPercentage y = (y - 0.75) * 10)
    ∧ (∀ (s : String) (st : CalcState),
        (updateSGPACalculation s st).sgpaPercentage = Cell.placeholder
        ∨ ∃ q : ℚ, (updateSGPACalculation s st).sgpaPercentage = Cell.val q) := by
  refine ⟨fun s h => by simp [isValidGPA, h], fun s => ?_, fun _ => rfl, fun _ _ => rfl,
    fun _ => rfl, fun s st => ?_⟩
  · cases h : isValidGPA s <;> simp
  · unfold updateSGPACalculation
    split_ifs <;> simp

/-- Witness for C8: the parse-failure conjunct discharged at the concrete
unparseable input "abc". -/
theorem C8_totality_witness : isValidGPA "abc" = false :=
  C8_totality.1 "abc" pf_abc

/-- Claim C9 (confirmed): the validator accepts strings that are not entirely
numeric, because validity is decided on parseFloat's longest numeric prefix:
"7abc" has whole-string value NaN yet prefix value 7, and is accepted; in
general any string whose prefix parse lands in [0, 10] is accepted. -/
theorem C9_prefix_parse :
    parseFloat "7abc" = some 7 ∧ toNumber "7abc" = none ∧ isValidGPA "7abc" = true
    ∧ (∀ (s : String) (q : ℚ), parseFloat s = some q → 0 ≤ q → q ≤ 10 →
        isValidGPA s = true) := by
  refine ⟨pf_seven_abc, tnum_seven_abc, valid_seven_abc, fun s q h h0 h10 => ?_⟩
  simp [isValidGPA, h, h0, h10]

/-- Witness for C9: the general prefix-acceptance conjunct discharged at the
concrete input "7abc" with prefix value 7. -/
theorem C9_prefix_parse_witness : isValidGPA "7abc" = true :=
  C9_prefix_parse.2.2.2 "7abc" 7 pf_seven_abc (by norm_num) (by norm_num)
/-- Claim C1 counterexample: the field text "15" fails isValidGPA, yet the
results view computes and displays a value for it — (15 - 0.75) * 10 = 142.5 —
instead of the placeholder the claim requires for invalid text. -/
theorem C1_counterexample :
    isValidGPA "15" = false
    ∧ (updateResultsPage "15" "" "").resultSgpaPercent = Cell.val (285 / 2)
    ∧ (updateResultsPage "15" "" "").resultSgpaPercent ≠ Cell.placeholder := by
  refine ⟨invalid_fifteen, ?_, ?_⟩
  · simp [updateResultsPage, tnum_fifteen, jsToFixed2]
    norm_num [round2, round_eq]
  · simp [updateResultsPage, jsToFixed2_ne_placeholder]

/-- Claim C1 (amended): when shown, the results view recomputes from the
current field texts, but it gates each displayed value only on the field text
being nonempty (truthy), not on isValidGPA: every cell shows its placeholder
exactly when the corresponding field text is empty, and any nonempty text —
valid or not — produces a computed (possibly NaN) value. -/
theorem C1_amended_truthiness_gate :
    ∀ s o e : String,
      ((updateResultsPage s o e).resultSgpa = Cell.placeholder ↔ s = "")
      ∧ ((updateResultsPage s o e).resultSgpaPercent = Cell.placeholder ↔ s = "")
      ∧ ((updateResultsPage s o e).resultYgpa = Cell.placeholder ↔ (o = "" ∨ e = ""))
      ∧ ((updateResultsPage s o e).resultYgpaPercent = Cell.placeholder ↔ (o = "" ∨ e = "")) := by
  intro s o e
  by_cases hs : s = "" <;> by_cases ho : o = "" <;> by_cases he : e = "" <;>
    cases hpo : parseFloat o <;> cases hpe : parseFloat e <;>
      simp [updateResultsPage, hs, ho, he, hpo, hpe, jsToFixed2_ne_placeholder]

/-- Claim C4 (confirmed): the two-term flow computes and displays the yearly
figures iff both field texts are simultaneously valid; when either is empty or
invalid the yearly displays are reset to the placeholder and the animation
parameters are left unchanged; in particular odd = "7", even = "" yields the
placeholder state with untouched animation parameters. -/
theorem C4_two_term_gate :
    ∀ (o e : String) (st : CalcState),
      ((updateYGPACalculation o e st).ygpaValue ≠ Cell.placeholder
        ↔ (isValidGPA o = true ∧ isValidGPA e = true))
      ∧ (¬(isValidGPA o = true ∧ isValidGPA e = true) →
          (updateYGPACalculation o e st).ygpaValue = Cell.placeholder
          ∧ (updateYGPACalculation o e st).ygpaPercentage = Cell.placeholder
          ∧ (updateYGPACalculation o e st).anim = st)
      ∧ ((updateYGPACalculation "7" "" st).ygpaValue = Cell.placeholder
          ∧ (updateYGPACalculation "7" "" st).ygpaPercentage = Cell.placeholder
          ∧ (updateYGPACalculation "7" "" st).anim = st) := by
  intro o e st
  have hval7 : ¬(isValidGPA "7" = true ∧ isValidGPA "" = true) := by
    rintro ⟨-, hc⟩
    simp [invalid_empty] at hc
  refine ⟨?_, ?_, ?_⟩
  · by_cases hb : isValidGPA o = true ∧ isValidGPA e = true
    · rw [updateYGPA_valid o e st hb.1 hb.2]
      simp [hb]
    · rw [updateYGPA_invalid o e st hb]
      simp [hb]
  · intro hb
    rw [updateYGPA_invalid o e st hb]
    exact ⟨rfl, rfl, rfl⟩
  · rw [updateYGPA_invalid "7" "" st hval7]
    exact ⟨rfl, rfl, rfl⟩

/-- Witness for C4: the invalid-pair implication discharged at the concrete
inputs odd = "7", even = "" and the initial animation parameters. -/
theorem C4_two_term_gate_witness :
    (updateYGPACalculation "7" "" ⟨0.005, 1⟩).ygpaValue = Cell.placeholder
    ∧ (updateYGPACalculation "7" "" ⟨0.005, 1⟩).anim = ⟨0.005, 1⟩ := by
  have hne : ¬(isValidGPA "7" = true ∧ isValidGPA "" = true) := by
    rintro ⟨-, hc⟩
    simp [invalid_empty] at hc
  have h := (C4_two_term_gate "7" "" ⟨0.005, 1⟩).2.1 hne
  exact ⟨h.1, h.2.2⟩

/-- Claim C5 (confirmed): whenever either flow computes a new percentage p, the
animation parameters become rotationSpeed = 0.005 + p / 1000 and
scaleMultiplier = 0.8 + p / 200, and both maps are strictly increasing in p. -/
theorem C5_animation_coupling :
    (∀ (s : String) (st : CalcState) (q : ℚ), parseFloat s = some q →
      isValidGPA s = true →
      (updateSGPACalculation s st).anim =
        ⟨rotationOf (sgpaToPercentage q), scaleOf (sgpaToPercentage q)⟩)
    ∧ (∀ (o e : String) (st : CalcState) (a b : ℚ), parseFloat o = some a →
        parseFloat e = some b → isValidGPA o = true → isValidGPA e = true →
        (updateYGPACalculation o e st).anim =
          ⟨rotationOf (ygpaToPercentage (calculateYGPA a b)),
            scaleOf (ygpaToPercentage (calculateYGPA a b))⟩)
    ∧ (∀ p q : ℚ, p < q → rotationOf p < rotationOf q ∧ scaleOf p < scaleOf q) := by
  refine ⟨fun s st q hq hv => ?_, fun o e st a b ha hb ho he => ?_,
    fun p q h => ⟨?_, ?_⟩⟩
  · rw [updateSGPA_valid s st hv, hq]
    rfl
  · rw [updateYGPA_valid o e st ho he, ha, hb]
    rfl
  · unfold rotationOf
    linarith
  · unfold scaleOf
    linarith

/-- Witness for C5: the single-flow conjunct discharged at the concrete valid
input "8", and strict monotonicity discharged at the pair 0 < 1. -/
theorem C5_animation_coupling_witness :
    (updateSGPACalculation "8" ⟨0.005, 1⟩).anim =
      ⟨rotationOf (sgpaToPercentage 8), scaleOf (sgpaToPercentage 8)⟩
    ∧ rotationOf 0 < rotationOf 1 ∧ scaleOf 0 < scaleOf 1 :=
  ⟨C5_animation_coupling.1 "8" ⟨0.005, 1⟩ 8 pf_eight valid_eight,
    (C5_animation_coupling.2.2 0 1 (by norm_num)).1,
    (C5_animation_coupling.2.2 0 1 (by norm_num)).2⟩
/-! Band evaluations at concrete percentages. -/

theorem congrats95 :
    showCongratulations 95 = some ("🌟 Outstanding Performance! 🌟", "🎉 ⭐ 🏆") := by
  simp only [showCongratulations]
  norm_num

theorem congrats85 :
    showCongratulations 85 = some ("🎊 Excellent Work! 🎊", "🎉 ✨ 👏") := by
  simp only [showCongratulations]
  norm_num

theorem congrats75 :
    showCongratulations 75 = some ("👍 Great Job! 👍", "😊 💪 👏") := by
  simp only [showCongratulations]
  norm_num

theorem congrats65 :
    showCongratulations 65 = some ("📈 Good Effort! Keep Improving 📈", "💫 🚀 🎯") := by
  simp only [showCongratulations]
  norm_num

theorem congrats55 : showCongratulations 55 = none := by
  simp only [showCongratulations]
  norm_num

theorem perftext95 :
    updatePerformanceText 95 = ("⭐ Outstanding - Exceptional performance!", "#00f5ff") := by
  simp only [updatePerformanceText]
  norm_num

theorem perftext85 :
    updatePerformanceText 85 = ("✨ Excellent - Keep it up!", "#7eb3ff") := by
  simp only [updatePerformanceText]
  norm_num

theorem perftext75 :
    updatePerformanceText 75 = ("👍 Good - On the right track!", "#a8e6cf") := by
  simp only [updatePerformanceText]
  norm_num

theorem perftext65 :
    updatePerformanceText 65 = ("📈 Satisfactory - Room for improvement!", "#ffd93d") := by
  simp only [updatePerformanceText]
  norm_num

theorem perftext55 :
    updatePerformanceText 55 = ("💪 Keep pushing forward!", "#ff6b6b") := by
  simp only [updatePerformanceText]
  norm_num

/-- Claim C6 (confirmed): the performance band is decided by the fixed
thresholds 90, 80, 70, 60 on the displayed percentage; each band has its own
message/colour pair, all pairwise distinct; below 60 the celebratory container
is cleared and only the neutral encouragement string is shown; 85 falls in the
excellent band and 55 in the lowest band with no celebratory message. -/
theorem C6_performance_bands :
    (∀ p : ℚ,
      (90 ≤ p →
        showCongratulations p = some ("🌟 Outstanding Performance! 🌟", "🎉 ⭐ 🏆")
        ∧ updatePerformanceText p = ("⭐ Outstanding - Exceptional performance!", "#00f5ff"))
      ∧ (80 ≤ p → p < 90 →
        showCongratulations p = some ("🎊 Excellent Work! 🎊", "🎉 ✨ 👏")
        ∧ updatePerformanceText p = ("✨ Excellent - Keep it up!", "#7eb3ff"))
      ∧ (70 ≤ p → p < 80 →
        showCongratulations p = some ("👍 Great Job! 👍", "😊 💪 👏")
        ∧ updatePerformanceText p = ("👍 Good - On the right track!", "#a8e6cf"))
      ∧ (60 ≤ p → p < 70 →
        showCongratulations p = some ("📈 Good Effort! Keep Improving 📈", "💫 🚀 🎯")
        ∧ updatePerformanceText p = ("📈 Satisfactory - Room for improvement!", "#ffd93d"))
      ∧ (p < 60 →
        showCongratulations p = none
        ∧ updatePerformanceText p = ("💪 Keep pushing forward!", "#ff6b6b")))
    ∧ showCongratulations 85 = some ("🎊 Excellent Work! 🎊", "🎉 ✨ 👏")
    ∧ showCongratulations 55 = none
    ∧ updatePerformanceText 55 = ("💪 Keep pushing forward!", "#ff6b6b")
    ∧ [showCongratulations 95, showCongratulations 85, showCongratulations 75,
        showCongratulations 65, showCongratulations 55].Pairwise (· ≠ ·)
    ∧ [updatePerformanceText 95, updatePerformanceText 85, updatePerformanceText 75,
        updatePerformanceText 65, updatePerformanceText 55].Pairwise (· ≠ ·) := by
  refine ⟨fun p => ⟨fun h => ⟨?_, ?_⟩, fun h h2 => ⟨?_, ?_⟩, fun h h2 => ⟨?_, ?_⟩,
      fun h h2 => ⟨?_, ?_⟩, fun h => ⟨?_, ?_⟩⟩, congrats85, congrats55, perftext55, ?_, ?_⟩
  · simp only [showCongratulations]
    split_ifs <;> rfl
  · simp only [updatePerformanceText]
    split_ifs <;> rfl
  · simp only [showCongratulations]
    split_ifs <;> first | rfl | linarith
  · simp only [updatePerformanceText]
    split_ifs <;> first | rfl | linarith
  · simp only [showCongratulations]
    split_ifs <;> first | rfl | linarith
  · simp only [updatePerformanceText]
    split_ifs <;> first | rfl | linarith
  · simp only [showCongratulations]
    split_ifs <;> first | rfl | linarith
  · simp only [updatePerformanceText]
    split_ifs <;> first | rfl | linarith
  · simp only [showCongratulations]
    split_ifs <;> first | rfl | linarith
  · simp only [updatePerformanceText]
    split_ifs <;> first | rfl | linarith
  · rw [congrats95, congrats85, congrats75, congrats65, congrats55]
    decide
  · rw [perftext95, perftext85, perftext75, perftext65, perftext55]
    decide

/-- Witness for C6: the band conjuncts discharged at the concrete percentages
85 (excellent band) and 55 (lowest band). -/
theorem C6_performance_bands_witness :
    (showCongratulations 85 = some ("🎊 Excellent Work! 🎊", "🎉 ✨ 👏")
      ∧ updatePerformanceText 85 = ("✨ Excellent - Keep it up!", "#7eb3ff"))
    ∧ (showCongratulations 55 = none
      ∧ updatePerformanceText 55 = ("💪 Keep pushing forward!", "#ff6b6b")) :=
  ⟨(C6_performance_bands.1 85).2.1 (by norm_num) (by norm_num),
    (C6_performance_bands.1 55).2.2.2.2 (by norm_num)⟩

/-- Claim C10 (confirmed): the results view computes the yearly percentage from
the yearly grade-point after rounding it to two decimals (the toFixed(2) string
is coerced back to a number), while the reactive two-term flow converts the
exact mean; at odd = "8", even = "8.002" the views display 72.50 and 72.51
respectively. -/
theorem C10_rounded_ygpa_divergence :
    (∀ (o e : String) (a b : ℚ) (st : CalcState),
      parseFloat o = some a → parseFloat e = some b →
      isValidGPA o = true → isValidGPA e = true →
      (updateResultsPage "" o e).resultYgpaPercent
          = Cell.val (round2 ((round2 (calculateYGPA a b) - 0.75) * 10))
      ∧ (updateYGPACalculation o e st).ygpaPercentage
          = Cell.val (round2 (ygpaToPercentage (calculateYGPA a b))))
    ∧ (updateResultsPage "" "8" "8.002").resultYgpaPercent
        = Cell.val (145 / 2)
    ∧ (updateYGPACalculation "8" "8.002" ⟨0.005, 1⟩).ygpaPercentage
        = Cell.val (7251 / 100)
    ∧ (updateResultsPage "" "8" "8.002").resultYgpaPercent
        ≠ (updateYGPACalculation "8" "8.002" ⟨0.005, 1⟩).ygpaPercentage := by
  have main : ∀ (o e : String) (a b : ℚ) (st : CalcState),
      parseFloat o = some a → parseFloat e = some b →
      isValidGPA o = true → isValidGPA e = true →
      (updateResultsPage "" o e).resultYgpaPercent
          = Cell.val (round2 ((round2 (calculateYGPA a b) - 0.75) * 10))
      ∧ (updateYGPACalculation o e st).ygpaPercentage
          = Cell.val (round2 (ygpaToPercentage (calculateYGPA a b))) := by
    intro o e a b st ha hb ho he
    have hno := isValidGPA_ne_empty ho
    have hne := isValidGPA_ne_empty he
    constructor
    · simp [updateResultsPage, hno, hne, ha, hb, jsToFixed2, calculateYGPA]
    · rw [updateYGPA_valid o e st ho he, ha, hb]
      rfl
  have h8 := main "8" "8.002" 8 (4001 / 500) ⟨0.005, 1⟩ pf_eight pf_8002 valid_eight valid_8002
  have hleft : (updateResultsPage "" "8" "8.002").resultYgpaPercent = Cell.val (145 / 2) := by
    rw [h8.1]
    norm_num [calculateYGPA, round2, round_eq]
  have hright : (updateYGPACalculation "8" "8.002" ⟨0.005, 1⟩).ygpaPercentage
      = Cell.val (7251 / 100) := by
    rw [h8.2]
    norm_num [calculateYGPA, ygpaToPercentage, round2, round_eq]
  refine ⟨main, hleft, hright, ?_⟩
  rw [hleft, hright]
  simp only [ne_eq, Cell.val.injEq]
  norm_num

/-- Witness for C10: the comparison conjunct discharged at the concrete valid
inputs odd = "8" (value 8) and even = "8.002" (value 4001/500). -/
theorem C10_rounded_ygpa_divergence_witness :
    (updateResultsPage "" "8" "8.002").resultYgpaPercent
        = Cell.val (round2 ((round2 (calculateYGPA 8 (4001 / 500)) - 0.75) * 10))
    ∧ (updateYGPACalculation "8" "8.002" ⟨0.005, 1⟩).ygpaPercentage
        = Cell.val (round2 (ygpaToPercentage (calculateYGPA 8 (4001 / 500)))) :=
  C10_rounded_ygpa_divergence.1 "8" "8.002" 8 (4001 / 500) ⟨0.005, 1⟩
    pf_eight pf_8002 valid_eight valid_8002

end GPAx
